import Mathlib

/-!
Shallow embedding of the `log_analyzer` agent core:
the message model and routing logic of `src/log_analyzer/main.py`,
the two log tools of `src/log_analyzer/tools/log_reader.py`,
and the advisory-lock entry point of `src/log_analyzer/evaluate.py`.

Python strings, paths and the filesystem are modelled explicitly:
`strContains s pat` is Python's `pat in s`; `PyPath` models `pathlib.Path`
joining (an absolute right operand replaces the base, `.` and empty
components are dropped, `..` is kept verbatim and only resolved by the
OS at `open`/`exists` time, modelled by `PyPath.resolve`); the filesystem
is a map from resolved paths to the list of lines (with terminators) of
the file stored there, `none` meaning no regular file exists at that path.
The model backend (`model.invoke`) is an arbitrary function parameter.
-/

/-- Splits a character list at a separator character; models splitting a
POSIX path string on `/`. -/
def splitCharsAux (sep : Char) : List Char → List Char → List (List Char)
  | [], acc => [acc.reverse]
  | c :: cs, acc =>
    if c = sep then acc.reverse :: splitCharsAux sep cs []
    else splitCharsAux sep cs (c :: acc)

/-- Python `pat in s` (substring containment). -/
def strContains (s pat : String) : Bool :=
  s.toList.tails.any (fun t => pat.toList.isPrefixOf t)

/-- `ToolCall {id, name, arguments}` carried by an assistant message. -/
structure ToolCall where
  id : String
  name : String
  arguments : String
deriving DecidableEq

/-- The message tagged union of the conversation model
(`langchain_core.messages`): `System`, `Human`, `Assistant` (with tool
calls), `ToolResult`. -/
inductive Message where
  | system (content : String)
  | human (content : String)
  | assistant (content : String) (tool_calls : List ToolCall)
  | toolResult (call_id : String) (content : String)
deriving DecidableEq

/-- `msg.content` — the text content of any message variant. -/
def Message.content : Message → String
  | .system c => c
  | .human c => c
  | .assistant c _ => c
  | .toolResult _ c => c

/-- `getattr(msg, "tool_calls", None)` with Python truthiness: only an
assistant message can carry a non-empty tool-call list; on every other
variant the attribute is absent (`None`, falsy), modelled as `[]`. -/
def Message.tool_calls : Message → List ToolCall
  | .assistant _ tcs => tcs
  | _ => []

/-- `isinstance(msg, SystemMessage)`. -/
def Message.isSystem : Message → Bool
  | .system _ => true
  | _ => false

/-- `AgentState` of `main.py`: the ordered conversation history. -/
structure AgentState where
  messages : List Message
deriving DecidableEq

/-- The three routing decisions of `router` in `main.py`. -/
inductive Route where
  | tools
  | agent
  | summarize
deriving DecidableEq

/-- The fixed system instruction `SYSTEM_PROMPT` of `main.py`. -/
def SYSTEM_PROMPT : Message :=
  Message.system
    ("You are a log analysis agent. Your job is to read log files using the " ++
     "tools available and report ONLY what you actually find in them.\n" ++
     "Rules:\n" ++
     "- Never fabricate errors, tracebacks, or timestamps that are not in the logs.\n" ++
     "- If the logs do not contain what the user asked for, say so explicitly.\n" ++
     "- Always call list_log_files first, then read the relevant files.")

/-- The history `call_model` hands to `model.invoke`: the Python
`if not messages or not isinstance(messages[0], SystemMessage):
messages = [SYSTEM_PROMPT] + messages`. -/
def call_model_input (messages : List Message) : List Message :=
  match messages with
  | [] => [SYSTEM_PROMPT]
  | m :: rest => if m.isSystem then m :: rest else SYSTEM_PROMPT :: m :: rest

/-- `call_model` of `main.py`: builds the input history, invokes the
backend once, and returns the one-message state update
`{"messages": [response]}`. -/
def call_model (invoke : List Message → Message) (state : AgentState) : List Message :=
  [invoke (call_model_input state.messages)]

/-- The synthetic `summary_prompt` `HumanMessage` built inside
`summarize_results` in `main.py`. -/
def summary_prompt : Message :=
  Message.human
    ("You have finished reading the logs. Provide a structured log analysis summary " ++
     "using EXACTLY this markdown format:\n\n" ++
     "### Conclusion\n" ++
     "<one-sentence overall finding>\n\n" ++
     "### 1. Root Cause\n" ++
     "<description>\n\n" ++
     "### 2. Timestamp\n" ++
     "<first and last relevant timestamp>\n\n" ++
     "### 3. Suggested Fix\n" ++
     "<actionable recommendation>\n\n" ++
     "Do not add any text before '### Conclusion'.")

/-- `summarize_results` of `main.py`: invokes the backend on the full
history extended with `summary_prompt` and returns the one-message state
update `{"messages": [response]}`. -/
def summarize_results (invoke : List Message → Message) (state : AgentState) : List Message :=
  [invoke (state.messages ++ [summary_prompt])]

/-- The `add_messages` reducer of the `AgentState` annotation: a node's
returned update is appended to the conversation. -/
def add_messages (state : AgentState) (update : List Message) : AgentState :=
  ⟨state.messages ++ update⟩

/-- `router` of `main.py`. Python indexes `state["messages"][-1]`, which
raises `IndexError` on an empty conversation; the fallible access is
modelled by `Option`, `none` standing for that failure. -/
def router (state : AgentState) : Option Route :=
  match state.messages.getLast? with
  | none => none
  | some last_msg =>
    if last_msg.tool_calls ≠ [] then some Route.tools
    else if strContains last_msg.content "Traceback" = true ∧ state.messages.length < 6 then
      some Route.agent
    else some Route.summarize

/-- A `pathlib`-style path: absolute flag plus components. Parsing drops
empty and `.` components (as `pathlib` does) but keeps `..` verbatim. -/
structure PyPath where
  absolute : Bool
  parts : List String
deriving DecidableEq

/-- Components of a path string: split on `/`, drop `""` and `"."`. -/
def parseParts (s : String) : List String :=
  ((splitCharsAux '/' s.toList []).map (fun cs => String.mk cs)).filter
    (fun c => !(c == "" || c == "."))

/-- `pathlib.Path(s)`. -/
def pyPath (s : String) : PyPath :=
  ⟨s.toList.head? = some '/', parseParts s⟩

/-- `base / child` of `pathlib`: an absolute `child` replaces `base`
entirely; otherwise the components are concatenated (`..` kept as-is,
no normalisation at join time). -/
def PyPath.join (base : PyPath) (child : String) : PyPath :=
  if (pyPath child).absolute then pyPath child
  else ⟨base.absolute, base.parts ++ parseParts child⟩

/-- OS-level resolution of `..` components, applied when the path is
handed to the filesystem (`exists`/`open`): `..` removes the preceding
component. -/
def resolveParts (parts : List String) : List String :=
  parts.foldl (fun acc c => if c = ".." then acc.dropLast else acc ++ [c]) []

/-- Resolves a path as the OS does before touching the filesystem. -/
def PyPath.resolve (p : PyPath) : PyPath :=
  ⟨p.absolute, resolveParts p.parts⟩

/-- Whether a resolved path lies inside the (resolved) log directory. -/
def withinLogDir (logDir : String) (p : PyPath) : Bool :=
  (p.absolute == ((pyPath logDir).resolve).absolute) &&
    ((pyPath logDir).resolve).parts.isPrefixOf p.parts

/-- The default value of `LOG_DIR = os.getenv("LOG_DIRECTORY", "./logs")`. -/
def LOG_DIR_DEFAULT : String := "./logs"

/-- A filesystem: the list of lines (each with its terminator, as Python
file iteration yields them) of the regular file at a resolved path,
`none` when no such file exists. -/
def FileSystem : Type := PyPath → Option (List String)

/-- `read_log_file` of `tools/log_reader.py`: joins `LOG_DIR` with the
filename, returns an error string when the file does not exist, else the
concatenation of the last `last_n_lines` lines
(`"".join(deque(f, maxlen=last_n_lines))`). The surrounding
`try/except` makes the Python function total; the model is a total
function. -/
def read_log_file (logDir : String) (fs : FileSystem) (filename : String)
    (last_n_lines : Nat := 20) : String :=
  let path := (pyPath logDir).join filename
  match fs path.resolve with
  | none => "Error: File " ++ filename ++ " not found in " ++ logDir
  | some fileLines => String.join (fileLines.drop (fileLines.length - last_n_lines))

/-- `Path.glob("*.log")` membership for a single directory entry: the
name ends in `.log` and is not a hidden (dot-initial) name, which glob
skips. -/
def matchesLogGlob (name : String) : Bool :=
  ".log".toList.isSuffixOf name.toList && !(name.toList.head? == some '.')

/-- `list_log_files` of `tools/log_reader.py`: the directory contents are
`some entries` when `Path(LOG_DIR).is_dir()` holds and `none` otherwise;
an invalid directory yields the single error string, else the names
matching the glob. The `try/except` again makes the function total. -/
def list_log_files (logDir : String) (dir : Option (List String)) : List String :=
  match dir with
  | none => ["Error: " ++ logDir ++ " is not a valid directory."]
  | some entries => entries.filter matchesLogGlob

/-- State of the advisory-lock world of `evaluate.py`: whether another
run currently holds the `flock` on `/tmp/log_analyzer_eval.lock`, and
whether that lock file exists. -/
structure EvalLockState where
  heldByOther : Bool
  lockFileExists : Bool
deriving DecidableEq

/-- Outcome of `run_evaluation`: either the inner evaluation ran to
completion, or the lock was contended and the call returned early.
Python raises no exception in either case. -/
inductive EvalOutcome where
  | ranEvaluation
  | contentionExit
deriving DecidableEq

/-- `run_evaluation` of `evaluate.py`, restricted to its locking
behaviour: `open(lock_path, "w")` creates the lock file; a non-blocking
`flock` either fails with `BlockingIOError` — caught: the function
prints, closes its own handle and returns, touching neither the other
run's lock nor the file — or succeeds, after which the inner evaluation
runs and the `finally` block unlocks, closes and unlinks the file. -/
def run_evaluation (s : EvalLockState) : EvalOutcome × EvalLockState :=
  let s1 : EvalLockState := { s with lockFileExists := true }
  if s1.heldByOther then
    (EvalOutcome.contentionExit, s1)
  else
    (EvalOutcome.ranEvaluation, { heldByOther := false, lockFileExists := false })

/-- Whether the first message of a history is a `System` message — the
exact condition `call_model` tests (negated) before prepending. -/
def headIsSystem (messages : List Message) : Bool :=
  match messages with
  | m :: _ => m.isSystem
  | [] => false

/-- A concrete filesystem holding one three-line log file at
`logs/server.log` (relative to the working directory). -/
def fsServerLog : FileSystem :=
  fun p => if p = (⟨false, ["logs", "server.log"]⟩ : PyPath) then
    some ["a\n", "b\n", "c\n"] else none

/-- `String.toList` distributes over append. -/
theorem toList_append (a b : String) : (a ++ b).toList = a.toList ++ b.toList :=
  String.data_append a b

/-- Substring containment holds whenever the character list decomposes
around the pattern. -/
theorem strContains_intro (s pat : String) (u v : List Char)
    (h : s.toList = u ++ pat.toList ++ v) : strContains s pat = true := by
  unfold strContains
  rw [List.any_eq_true]
  refine ⟨pat.toList ++ v, ?_, ?_⟩
  · exact (List.mem_tails _ _).mpr ⟨u, by rw [h, List.append_assoc]⟩
  · exact List.isPrefixOf_iff_prefix.mpr ⟨v, rfl⟩

/-- C1: On a non-empty conversation, `router` returns `tools` when the
last message carries tool calls; otherwise `agent` when the content
contains `"Traceback"` and the conversation is shorter than 6 messages;
otherwise `summarize` — in particular, at length ≥ 6 a traceback without
tool calls still routes to `summarize`. -/
theorem router_policy (s : AgentState) (last_msg : Message)
    (h : s.messages.getLast? = some last_msg) :
    (last_msg.tool_calls ≠ [] → router s = some Route.tools) ∧
    (last_msg.tool_calls = [] → strContains last_msg.content "Traceback" = true →
      s.messages.length < 6 → router s = some Route.agent) ∧
    (last_msg.tool_calls = [] →
      (strContains last_msg.content "Traceback" = false ∨ 6 ≤ s.messages.length) →
      router s = some Route.summarize) ∧
    (6 ≤ s.messages.length → strContains last_msg.content "Traceback" = true →
      last_msg.tool_calls = [] → router s = some Route.summarize) := by
  refine ⟨?_, ?_, ?_, ?_⟩
  · intro htc
    simp only [router, h]
    rw [if_pos htc]
  · intro htc htb hlen
    simp only [router, h]
    rw [if_neg (by simp [htc]), if_pos ⟨htb, hlen⟩]
  · intro htc hor
    simp only [router, h]
    rw [if_neg (by simp [htc]), if_neg ?_]
    rintro ⟨htb, hlen⟩
    rcases hor with hfalse | hge
    · rw [htb] at hfalse
      exact Bool.noConfusion hfalse
    · omega
  · intro hge htb htc
    simp only [router, h]
    rw [if_neg (by simp [htc]), if_neg ?_]
    rintro ⟨-, hlen⟩
    omega

/-- Witness for C1: a one-message conversation whose assistant message
mentions a traceback and carries no tool calls routes to `agent`. -/
theorem router_policy_witness :
    router ⟨[Message.assistant "boom Traceback seen" []]⟩ = some Route.agent :=
  (router_policy ⟨[Message.assistant "boom Traceback seen" []]⟩
      (Message.assistant "boom Traceback seen" []) (by decide)).2.1 rfl (by decide) (by decide)

/-- C8: `router` is deterministic — it is a function of the conversation
alone, so identical message histories yield identical decisions. Freedom
from side effects is intrinsic to the embedding: `router` only reads the
state and returns a decision, leaving the state value untouched. -/
theorem router_deterministic (s t : AgentState) (h : s.messages = t.messages) :
    router s = router t := by
  cases s
  cases t
  cases h
  rfl

/-- Witness for C8: two invocations on the same concrete conversation
agree. -/
theorem router_deterministic_witness :
    router ⟨[Message.human "why did it crash"]⟩ = router ⟨[Message.human "why did it crash"]⟩ :=
  router_deterministic ⟨[Message.human "why did it crash"]⟩
    ⟨[Message.human "why did it crash"]⟩ rfl

/-- C10: on an empty conversation `router` reaches no decision (the
Python `state["messages"][-1]` raises `IndexError`, modelled by `none`),
while every non-empty conversation does receive a decision. -/
theorem router_empty_no_decision :
    router ⟨[]⟩ = none ∧ ∀ s : AgentState, s.messages ≠ [] → (router s).isSome = true := by
  refine ⟨rfl, ?_⟩
  intro s hne
  rcases hlast : s.messages.getLast? with - | last_msg
  · exact absurd (List.getLast?_eq_none_iff.mp hlast) hne
  · simp only [router, hlast]
    split
    · rfl
    · split <;> rfl

/-- Witness for C10: a concrete one-message conversation gets a
decision. -/
theorem router_empty_no_decision_witness :
    router ⟨[]⟩ = none ∧ (router ⟨[Message.human "q"]⟩).isSome = true :=
  ⟨router_empty_no_decision.1,
    router_empty_no_decision.2 ⟨[Message.human "q"]⟩ (by decide)⟩

/-- C2: `read_log_file` does NOT confine resolution to the log
directory. With the default `./logs` directory, the filename
`../secret.txt` joins and resolves to `secret.txt` outside the log
directory, yet the function reads and returns that file's contents; an
absolute filename such as `/etc/passwd` likewise resolves outside the
directory (an absolute right operand replaces the base in `pathlib`). -/
theorem read_log_file_escapes_log_dir :
    withinLogDir "./logs" (((pyPath "./logs").join "../secret.txt").resolve) = false ∧
    read_log_file "./logs"
      (fun p => if p = (⟨false, ["secret.txt"]⟩ : PyPath) then some ["top secret\n"] else none)
      "../secret.txt" 20 = "top secret\n" ∧
    withinLogDir "./logs" (((pyPath "./logs").join "/etc/passwd").resolve) = false := by
  decide

/-- C3: on a filename whose joined path names no existing file,
`read_log_file` returns normally (the model is a total function, as the
Python `try/except` makes the original) with a string containing both
the word `Error` and the supplied filename. -/
theorem read_log_file_missing_error (logDir : String) (fs : FileSystem) (filename : String)
    (n : Nat) (h : fs (((pyPath logDir).join filename).resolve) = none) :
    read_log_file logDir fs filename n =
      "Error: File " ++ filename ++ " not found in " ++ logDir ∧
    strContains (read_log_file logDir fs filename n) "Error" = true ∧
    strContains (read_log_file logDir fs filename n) filename = true := by
  have e : read_log_file logDir fs filename n =
      "Error: File " ++ filename ++ " not found in " ++ logDir := by
    simp only [read_log_file]
    rw [h]
  refine ⟨e, ?_, ?_⟩
  · rw [e]
    apply strContains_intro _ _ []
      ((": File " ++ filename ++ " not found in " ++ logDir).toList)
    have hc : ("Error: File ").toList = "Error".toList ++ (": File ").toList := by decide
    simp [toList_append, hc, List.append_assoc]
  · rw [e]
    apply strContains_intro _ _ ("Error: File ").toList
      ((" not found in " ++ logDir).toList)
    simp [toList_append, List.append_assoc]

/-- Witness for C3: the missing file `missing.log` on an empty
filesystem yields the expected error string. -/
theorem read_log_file_missing_error_witness :
    read_log_file "./logs" (fun _ => none) "missing.log" 20 =
      "Error: File " ++ "missing.log" ++ " not found in " ++ "./logs" ∧
    strContains (read_log_file "./logs" (fun _ => none) "missing.log" 20) "Error" = true ∧
    strContains (read_log_file "./logs" (fun _ => none) "missing.log" 20) "missing.log" = true :=
  read_log_file_missing_error "./logs" (fun _ => none) "missing.log" 20 rfl

/-- C4: on an existing directory with no `*.log` match,
`list_log_files` returns the empty sequence; on an invalid directory it
returns exactly one element, an error string (never an exception: the
model is total, as the Python `try/except` makes the original). -/
theorem list_log_files_empty_and_invalid (logDir : String) (entries : List String)
    (h : ∀ e ∈ entries, matchesLogGlob e = false) :
    list_log_files logDir (some entries) = [] ∧
    ∃ err, list_log_files logDir none = [err] ∧ strContains err "Error" = true := by
  refine ⟨?_, "Error: " ++ logDir ++ " is not a valid directory.", rfl, ?_⟩
  · simp only [list_log_files]
    rw [List.filter_eq_nil_iff]
    intro a ha
    simp [h a ha]
  · apply strContains_intro _ _ []
      ((": " ++ logDir ++ " is not a valid directory.").toList)
    have hc : ("Error: ").toList = "Error".toList ++ (": ").toList := by decide
    simp [toList_append, hc, List.append_assoc]

/-- Witness for C4: a directory holding only `notes.txt` lists no log
files, and the invalid-directory answer is a single error string. -/
theorem list_log_files_empty_and_invalid_witness :
    list_log_files "./logs" (some ["notes.txt"]) = [] ∧
    ∃ err, list_log_files "./logs" none = [err] ∧ strContains err "Error" = true :=
  list_log_files_empty_and_invalid "./logs" ["notes.txt"] (by decide)

/-- C5 counterexample: a conversation that does contain a `System`
message — just not at index 0 — is still changed by `call_model`: the
fixed prompt is prepended, refuting the claim that such a history is
passed unchanged. -/
theorem call_model_prepend_counterexample :
    ([Message.human "hi", Message.system "sys"] : List Message).any Message.isSystem = true ∧
    call_model_input [Message.human "hi", Message.system "sys"] ≠
      [Message.human "hi", Message.system "sys"] := by
  decide

/-- C5 (amended): `call_model` hands the backend the history with
`SYSTEM_PROMPT` prepended exactly when the history is empty or its FIRST
message is not a `System` message; only a history whose first message is
a `System` message is passed unchanged. -/
theorem call_model_prepend_amended (invoke : List Message → Message) (s : AgentState) :
    call_model invoke s = [invoke (call_model_input s.messages)] ∧
    (call_model_input s.messages = s.messages ↔ headIsSystem s.messages = true) ∧
    (headIsSystem s.messages = false →
      call_model_input s.messages = SYSTEM_PROMPT :: s.messages) := by
  refine ⟨rfl, ?_, ?_⟩
  · cases hm : s.messages with
    | nil => simp [call_model_input, headIsSystem]
    | cons m rest =>
      cases hms : m.isSystem with
      | false =>
        simp only [call_model_input, headIsSystem, hms, Bool.false_eq_true, if_false]
        exact iff_of_false (List.cons_ne_self _ _) (by simp)
      | true =>
        simp [call_model_input, headIsSystem, hms]
  · intro hfalse
    cases hm : s.messages with
    | nil => simp [call_model_input]
    | cons m rest =>
      rw [hm] at hfalse
      simp only [headIsSystem] at hfalse
      simp [call_model_input, hfalse]

/-- Witness for C5 (amended): a history opening with a `Human` message
is extended with the system prompt. -/
theorem call_model_prepend_amended_witness :
    call_model_input [Message.human "hi"] = SYSTEM_PROMPT :: [Message.human "hi"] :=
  (call_model_prepend_amended (fun _ => Message.assistant "ok" [])
    ⟨[Message.human "hi"]⟩).2.2 (by decide)

set_option maxRecDepth 8192 in
/-- C6: `summarize_results` extends the history with the one synthetic
`Human` instruction `summary_prompt` (whose text requests the fixed
markdown report structure), invokes the backend exactly once on that
extended history — its update is the single-element list holding the
backend's one response — and after the `add_messages` reducer that
response is the final message of the conversation. -/
theorem summarize_results_spec (invoke : List Message → Message) (s : AgentState) :
    ∃ response, response = invoke (s.messages ++ [summary_prompt]) ∧
      summarize_results invoke s = [response] ∧
      add_messages s (summarize_results invoke s) = ⟨s.messages ++ [response]⟩ ∧
      ∃ c, summary_prompt = Message.human c ∧
        strContains c "### Conclusion" = true ∧
        strContains c "### 1. Root Cause" = true ∧
        strContains c "### 2. Timestamp" = true ∧
        strContains c "### 3. Suggested Fix" = true := by
  refine ⟨invoke (s.messages ++ [summary_prompt]), rfl, rfl, rfl, ?_⟩
  exact ⟨_, rfl, by decide, by decide, by decide, by decide⟩

/-- C7: on an existing file, `read_log_file` returns the concatenation
of the last `min n (number of lines)` lines, and the `last_n_lines`
argument defaults to 20. -/
theorem read_log_file_last_lines (logDir : String) (fs : FileSystem) (filename : String)
    (n : Nat) (fileLines : List String)
    (h : fs (((pyPath logDir).join filename).resolve) = some fileLines) :
    ∃ pre suf, fileLines = pre ++ suf ∧ suf.length = min n fileLines.length ∧
      read_log_file logDir fs filename n = String.join suf ∧
      read_log_file logDir fs filename = read_log_file logDir fs filename 20 := by
  refine ⟨fileLines.take (fileLines.length - n), fileLines.drop (fileLines.length - n),
    (List.take_append_drop _ _).symm, ?_, ?_, rfl⟩
  · rw [List.length_drop]
    omega
  · simp only [read_log_file]
    rw [h]

/-- Witness for C7: the last 2 of the 3 lines of `logs/server.log`. -/
theorem read_log_file_last_lines_witness :
    ∃ pre suf, (["a\n", "b\n", "c\n"] : List String) = pre ++ suf ∧
      suf.length = min 2 (["a\n", "b\n", "c\n"] : List String).length ∧
      read_log_file "./logs" fsServerLog "server.log" 2 = String.join suf ∧
      read_log_file "./logs" fsServerLog "server.log" =
        read_log_file "./logs" fsServerLog "server.log" 20 :=
  read_log_file_last_lines "./logs" fsServerLog "server.log" 2 ["a\n", "b\n", "c\n"] (by decide)

/-- C9: when another run holds the advisory lock, `run_evaluation`
returns the contention outcome (no exception: `BlockingIOError` is
caught), runs no evaluation, and leaves the other run's lock held and
the lock file in place — the failed attempt neither releases nor deletes
it. -/
theorem run_evaluation_lock_contention (s : EvalLockState) (h : s.heldByOther = true) :
    (run_evaluation s).1 = EvalOutcome.contentionExit ∧
    (run_evaluation s).2.heldByOther = true ∧
    (run_evaluation s).2.lockFileExists = true := by
  simp [run_evaluation, h]

/-- Witness for C9: a contended lock with the lock file present. -/
theorem run_evaluation_lock_contention_witness :
    (run_evaluation ⟨true, true⟩).1 = EvalOutcome.contentionExit ∧
    (run_evaluation ⟨true, true⟩).2.heldByOther = true ∧
    (run_evaluation ⟨true, true⟩).2.lockFileExists = true :=
  run_evaluation_lock_contention ⟨true, true⟩ rfl
